import Mathlib

/-!
Verification of the debug-render overlay policy of `bevy_rapier`
(`src/render/mod.rs`).

The module is a debug-visualization adapter: it receives line segments from
rapier's `DebugRenderPipeline` and forwards them, scaled from physics units
to display units, to bevy's `Gizmos` immediate-mode line drawer, applying a
visibility policy (global toggle and per-entity `ColliderDebug` opt-in) and
a color policy (per-entity `ColliderDebugColor` override).

Numeric values (`Real = f32` in the source) are modelled as `ℚ`; the claims
proved here involve only exact arithmetic (multiplication by a scale factor
at exactly representable inputs, and save/restore by copy), so the rational
model is faithful for them.  Bevy/rapier collaborators (entity queries, the
collider set, the upstream traversal) are modelled as read-only lookup
functions and an arbitrary traversal function, following the source's use
of them.
-/

namespace DebugRender

/-- A bevy `Entity`, identified by its 64-bit bit representation. -/
abbrev Entity : Type := Nat

/-- Model of `Entity::from_bits`: the source computes
`Entity::from_bits(co.user_data as u64)`, truncating rapier's `u128`
user-data to 64 bits. -/
def Entity.from_bits (bits : Nat) : Entity := bits % 2 ^ 64

/-- A rapier `ColliderHandle` (index into the collider set). -/
abbrev ColliderHandle : Type := Nat

/-- The part of a rapier `Collider` read by this module: its `user_data`
slot (a `u128` in the source, holding the bevy entity bits). -/
structure ColliderData where
  user_data : Nat
deriving DecidableEq

/-- An HSLA color quadruple, the `[f32; 4]` color payload used by rapier's
debug-render pipeline (hue, saturation, lightness, alpha). -/
structure Hsla where
  h : ℚ
  s : ℚ
  l : ℚ
  a : ℚ
deriving DecidableEq

/-- A bevy `Color`.  The source only ever builds colors with `Color::hsla`
and reads them with `as_hsla_f32`, so the model carries the HSLA
components directly. -/
structure Color where
  toHsla : Hsla
deriving DecidableEq

/-- Model of bevy `Color::as_hsla_f32`: the `[f32; 4]` HSLA view of a color. -/
def Color.as_hsla_f32 (c : Color) : Hsla := c.toHsla

/-- Model of the bevy `Color::hsla` constructor. -/
def Color.hsla (h s l a : ℚ) : Color := ⟨⟨h, s, l, a⟩⟩

/-- The `ColliderDebugColor(pub Color)` component: forces the color used to
render a collider. -/
structure ColliderDebugColor where
  color : Color
deriving DecidableEq

/-- A 2D point (`Point<Real>` under the `dim2` feature). -/
structure Point2 where
  x : ℚ
  y : ℚ
deriving DecidableEq

/-- A 3D point (`Point<Real>` under the `dim3` feature). -/
structure Point3 where
  x : ℚ
  y : ℚ
  z : ℚ
deriving DecidableEq

/-- A bevy `Vec3`, endpoint type of `Gizmos::line` (both builds draw 3D
gizmo lines; the 2D build synthesizes `z = 0`). -/
structure Vec3 where
  x : ℚ
  y : ℚ
  z : ℚ
deriving DecidableEq

/-- One call to the draw sink `Gizmos::line(a, b, color)`. -/
structure GizmoLine where
  a : Vec3
  b : Vec3
  color : Color
deriving DecidableEq

/-- A rapier `DebugRenderObject`.  Only the `Collider` variant's handle is
inspected by this module; the remaining variants exist so the wildcard
arms of the source's `match`es are exercised. -/
inductive DebugRenderObject where
  | Collider (h : ColliderHandle)
  | RigidBody (h : Nat)
  | ImpulseJoint (h : Nat)
  | MultibodyJoint (h : Nat)
  | ColliderAabbs (h : ColliderHandle)
  | ContactPair (h1 h2 : ColliderHandle)
deriving DecidableEq

/-- Whether a drawable object is the `Collider` variant. -/
def DebugRenderObject.isCollider : DebugRenderObject → Bool
  | .Collider _ => true
  | _ => false

/-- Rapier's `DebugRenderStyle`: the source reads and rescales its
`rigid_body_axes_length` field and copies the struct whole.  The struct's
other fields (colors, lengths, subdivision counts — all external to this
repository) are bundled as an abstract list so that whole-struct copy
semantics is observable on them. -/
structure DebugRenderStyle where
  rigid_body_axes_length : ℚ
  other_fields : List ℚ
deriving DecidableEq

/-- Rapier's `DebugRenderMode` bit flags. -/
abbrev DebugRenderMode : Type := Nat

/-- The state of rapier's `DebugRenderPipeline` visible to this module:
its `style` and `mode` fields. -/
structure DebugRenderPipeline where
  style : DebugRenderStyle
  mode : DebugRenderMode
deriving DecidableEq

/-- The `DebugRenderContext` resource: `enabled`, `global`, and the
pipeline. -/
structure DebugRenderContext where
  enabled : Bool
  global : Bool
  pipeline : DebugRenderPipeline
deriving DecidableEq

/-- The part of the `RapierContext` resource read by this module: the
physics scale and the collider set (modelled as a handle-indexed lookup,
as the source only calls `colliders.get`).  The body, joint and
narrow-phase sets are passed through verbatim to rapier's traversal and
are absorbed into the traversal function parameter of
`debug_render_scene`. -/
structure RapierContext where
  physics_scale : ℚ
  colliders : ColliderHandle → Option ColliderData

/-- The `RapierDebugRenderPlugin` struct, fields in source order. -/
structure RapierDebugRenderPlugin where
  global : Bool
  enabled : Bool
  style : DebugRenderStyle
  mode : DebugRenderMode

/-- Model of `RapierDebugRenderPlugin::default` under the `dim2` feature:
library-default style except `rigid_body_axes_length = 20.0`.  The library
defaults (`DebugRenderStyle::default`, `DebugRenderMode::default`) live in
the external rapier crate, so they are parameters. -/
def RapierDebugRenderPlugin.default_dim2 (libStyle : DebugRenderStyle)
    (libMode : DebugRenderMode) : RapierDebugRenderPlugin :=
  { enabled := true
    global := true
    style := { libStyle with rigid_body_axes_length := 20 }
    mode := libMode }

/-- Model of `RapierDebugRenderPlugin::default` under the `dim3` feature:
everything at library defaults. -/
def RapierDebugRenderPlugin.default_dim3 (libStyle : DebugRenderStyle)
    (libMode : DebugRenderMode) : RapierDebugRenderPlugin :=
  { enabled := true
    global := true
    style := libStyle
    mode := libMode }

/-- The `BevyLinesRenderBackend` struct.  The two bevy queries are modelled
as read-only lookups: `custom_colors` is `Query<&ColliderDebugColor>` (the
`.get(entity).ok()` view) and `visible_colliders` is the optional
`Query<&ColliderDebug>` used only through `.contains(entity)`, hence a
membership function.  `context_colliders` is the `context.colliders`
collider set of the borrowed `RapierContext`. -/
structure BevyLinesRenderBackend where
  physics_scale : ℚ
  custom_colors : Entity → Option ColliderDebugColor
  visible_colliders : Option (Entity → Bool)
  context_colliders : ColliderHandle → Option ColliderData

/-- Model of `BevyLinesRenderBackend::object_color`: for a `Collider`
object, look its handle up in the collider set, decode the entity from
`user_data`, and fetch an optional `ColliderDebugColor`; any hit is
converted with `as_hsla_f32`, otherwise the upstream default is kept. -/
def object_color (B : BevyLinesRenderBackend) (object : DebugRenderObject)
    (default : Hsla) : Hsla :=
  let color : Option Color :=
    match object with
    | .Collider h =>
        (B.context_colliders h).bind fun co =>
          (B.custom_colors (Entity.from_bits co.user_data)).map fun cdc => cdc.color
    | _ => none
  (color.map Color.as_hsla_f32).getD default

/-- Model of `BevyLinesRenderBackend::drawing_enabled`: if no opt-in query
was installed (`visible_colliders = none`, the `global` path), everything
is drawn; otherwise a `Collider` is drawn iff its handle resolves and the
decoded entity is in the opt-in query, and every other object is drawn. -/
def drawing_enabled (B : BevyLinesRenderBackend)
    (object : DebugRenderObject) : Bool :=
  match B.visible_colliders with
  | none => true
  | some visible_colliders =>
      match object with
      | .Collider h =>
          ((B.context_colliders h).map fun co =>
            visible_colliders (Entity.from_bits co.user_data)).getD false
      | _ => true

/-- Model of `draw_line` under the `dim3` feature: skip the line when
drawing is disabled for the object, otherwise scale both endpoints by the
physics scale, resolve the color, and emit one gizmo line. -/
def draw_line (B : BevyLinesRenderBackend) (object : DebugRenderObject)
    (a b : Point3) (color : Hsla) : Option GizmoLine :=
  if !drawing_enabled B object then
    none
  else
    let scale := B.physics_scale
    let color := object_color B object color
    some { a := ⟨a.x * scale, a.y * scale, a.z * scale⟩
           b := ⟨b.x * scale, b.y * scale, b.z * scale⟩
           color := Color.hsla color.h color.s color.l color.a }

/-- Model of `draw_line` under the `dim2` feature: identical to the 3D one
except the gizmo endpoints get a synthesized zero third component. -/
def draw_line2 (B : BevyLinesRenderBackend) (object : DebugRenderObject)
    (a b : Point2) (color : Hsla) : Option GizmoLine :=
  if !drawing_enabled B object then
    none
  else
    let scale := B.physics_scale
    let color := object_color B object color
    some { a := ⟨a.x * scale, a.y * scale, 0⟩
           b := ⟨b.x * scale, b.y * scale, 0⟩
           color := Color.hsla color.h color.s color.l color.a }

/-- One store lookup performed by the backend: a `colliders.get`, a
`visible_colliders.contains`, or a `custom_colors.get`. -/
inductive StoreLookup where
  | colliderSet (h : ColliderHandle)
  | visibleQuery (e : Entity)
  | colorQuery (e : Entity)
deriving DecidableEq

/-- The store lookups `drawing_enabled` performs, in order. -/
def drawing_enabled_lookups (B : BevyLinesRenderBackend)
    (object : DebugRenderObject) : List StoreLookup :=
  match B.visible_colliders with
  | none => []
  | some _ =>
      match object with
      | .Collider h =>
          .colliderSet h ::
            (match B.context_colliders h with
             | some co => [.visibleQuery (Entity.from_bits co.user_data)]
             | none => [])
      | _ => []

/-- The store lookups `object_color` performs, in order. -/
def object_color_lookups (B : BevyLinesRenderBackend)
    (object : DebugRenderObject) : List StoreLookup :=
  match object with
  | .Collider h =>
      .colliderSet h ::
        (match B.context_colliders h with
         | some co => [.colorQuery (Entity.from_bits co.user_data)]
         | none => [])
  | _ => []

/-- The store lookups one `draw_line` call performs: those of the
visibility check, then — only when the object passes it — those of color
resolution. -/
def draw_line_lookups (B : BevyLinesRenderBackend)
    (object : DebugRenderObject) : List StoreLookup :=
  drawing_enabled_lookups B object ++
    (if drawing_enabled B object then object_color_lookups B object else [])

/-- One line emitted by rapier's traversal under `dim3`: the argument
tuple of a `backend.draw_line` callback. -/
structure Emission3 where
  object : DebugRenderObject
  a : Point3
  b : Point3
  color : Hsla

/-- One line emitted by rapier's traversal under `dim2`. -/
structure Emission2 where
  object : DebugRenderObject
  a : Point2
  b : Point2
  color : Hsla

/-- Result of one frame pass of `debug_render_scene`: the
`DebugRenderContext` resource afterwards, the gizmo lines drawn, and the
store lookups performed. -/
structure PassResult where
  context : DebugRenderContext
  lines : List GizmoLine
  lookups : List StoreLookup
deriving DecidableEq

/-- The backend value `debug_render_scene` constructs: opt-in query
installed only when `global` is false. -/
def mkBackend (rapier : RapierContext) (render_context : DebugRenderContext)
    (custom_colors : Entity → Option ColliderDebugColor)
    (visible_colliders : Entity → Bool) : BevyLinesRenderBackend :=
  { physics_scale := rapier.physics_scale
    custom_colors := custom_colors
    visible_colliders :=
      if render_context.global then none else some visible_colliders
    context_colliders := rapier.colliders }

/-- Model of the `debug_render_scene` system under `dim3`.  `render_fn`
stands for rapier's external `DebugRenderPipeline::render` traversal: fed
the (rescaled) style and the mode, it yields the lines it pushes through
the backend and the style it leaves in the pipeline (`render` takes the
pipeline by `&mut`, so the model lets the traversal mutate the style; the
source then overwrites it with the snapshot).  If `enabled` is false the
system returns before touching anything. -/
def debug_render_scene
    (render_fn : DebugRenderStyle → DebugRenderMode → List Emission3 × DebugRenderStyle)
    (rapier : RapierContext) (render_context : DebugRenderContext)
    (custom_colors : Entity → Option ColliderDebugColor)
    (visible_colliders : Entity → Bool) : PassResult :=
  if !render_context.enabled then
    { context := render_context, lines := [], lookups := [] }
  else
    let backend := mkBackend rapier render_context custom_colors visible_colliders
    let unscaled_style := render_context.pipeline.style
    let scaled_style :=
      { unscaled_style with
        rigid_body_axes_length :=
          unscaled_style.rigid_body_axes_length / rapier.physics_scale }
    let traversal := render_fn scaled_style render_context.pipeline.mode
    let lines := traversal.1.filterMap fun e =>
      draw_line backend e.object e.a e.b e.color
    let lookups := (traversal.1.map fun e => draw_line_lookups backend e.object).flatten
    let pipeline_after : DebugRenderPipeline :=
      { style := traversal.2, mode := render_context.pipeline.mode }
    { context :=
        { render_context with
          pipeline := { pipeline_after with style := unscaled_style } }
      lines := lines
      lookups := lookups }

/-- Model of the `debug_render_scene` system under `dim2`; only the
`draw_line` variant differs. -/
def debug_render_scene2
    (render_fn : DebugRenderStyle → DebugRenderMode → List Emission2 × DebugRenderStyle)
    (rapier : RapierContext) (render_context : DebugRenderContext)
    (custom_colors : Entity → Option ColliderDebugColor)
    (visible_colliders : Entity → Bool) : PassResult :=
  if !render_context.enabled then
    { context := render_context, lines := [], lookups := [] }
  else
    let backend := mkBackend rapier render_context custom_colors visible_colliders
    let unscaled_style := render_context.pipeline.style
    let scaled_style :=
      { unscaled_style with
        rigid_body_axes_length :=
          unscaled_style.rigid_body_axes_length / rapier.physics_scale }
    let traversal := render_fn scaled_style render_context.pipeline.mode
    let lines := traversal.1.filterMap fun e =>
      draw_line2 backend e.object e.a e.b e.color
    let lookups := (traversal.1.map fun e => draw_line_lookups backend e.object).flatten
    let pipeline_after : DebugRenderPipeline :=
      { style := traversal.2, mode := render_context.pipeline.mode }
    { context :=
        { render_context with
          pipeline := { pipeline_after with style := unscaled_style } }
      lines := lines
      lookups := lookups }

/-- The §4.1 resolver contract `resolve(object, default_color) ->
(visible, color)`, as implemented by `drawing_enabled` and `object_color`
on a shared borrow of the backend: the backend (configuration and store
views) is returned so that its preservation is a statable fact. -/
def resolve (B : BevyLinesRenderBackend) (object : DebugRenderObject)
    (default : Hsla) : (Bool × Hsla) × BevyLinesRenderBackend :=
  ((drawing_enabled B object, object_color B object default), B)


/-! ## Helper lemmas -/

theorem debug_render_scene_context
    (render_fn : DebugRenderStyle → DebugRenderMode → List Emission3 × DebugRenderStyle)
    (rapier : RapierContext) (render_context : DebugRenderContext)
    (custom_colors : Entity → Option ColliderDebugColor)
    (visible_colliders : Entity → Bool) :
    (debug_render_scene render_fn rapier render_context
      custom_colors visible_colliders).context = render_context := by
  unfold debug_render_scene
  split <;> rfl

theorem debug_render_scene2_context
    (render_fn : DebugRenderStyle → DebugRenderMode → List Emission2 × DebugRenderStyle)
    (rapier : RapierContext) (render_context : DebugRenderContext)
    (custom_colors : Entity → Option ColliderDebugColor)
    (visible_colliders : Entity → Bool) :
    (debug_render_scene2 render_fn rapier render_context
      custom_colors visible_colliders).context = render_context := by
  unfold debug_render_scene2
  split <;> rfl

/-! ## Claims -/

/-- C1: if `enabled` is false, the frame pass (in both the 2D and the 3D
build) produces zero draw calls and performs no store lookups — the
emitted draw-line sequence is empty and the context is untouched,
regardless of the global flag, the opt-in set, the override table, or
what the upstream traversal would have emitted. -/
theorem disabled_pass_is_empty
    (render_fn : DebugRenderStyle → DebugRenderMode → List Emission3 × DebugRenderStyle)
    (render_fn2 : DebugRenderStyle → DebugRenderMode → List Emission2 × DebugRenderStyle)
    (rapier : RapierContext) (ctx : DebugRenderContext)
    (custom_colors : Entity → Option ColliderDebugColor)
    (visible_colliders : Entity → Bool)
    (hdis : ctx.enabled = false) :
    debug_render_scene render_fn rapier ctx custom_colors visible_colliders =
      { context := ctx, lines := [], lookups := [] } ∧
    debug_render_scene2 render_fn2 rapier ctx custom_colors visible_colliders =
      { context := ctx, lines := [], lookups := [] } := by
  constructor
  · unfold debug_render_scene
    rw [hdis]
    rfl
  · unfold debug_render_scene2
    rw [hdis]
    rfl

/-- Witness for C1 at a concrete disabled configuration. -/
theorem disabled_pass_is_empty_witness :
    (⟨false, true, ⟨⟨1, []⟩, 0⟩⟩ : DebugRenderContext).enabled = false ∧
    debug_render_scene (fun s _ => ([], s)) ⟨1, fun _ => none⟩
        ⟨false, true, ⟨⟨1, []⟩, 0⟩⟩ (fun _ => none) (fun _ => false) =
      { context := ⟨false, true, ⟨⟨1, []⟩, 0⟩⟩, lines := [], lookups := [] } :=
  ⟨rfl,
    (disabled_pass_is_empty (fun s _ => ([], s)) (fun s _ => ([], s))
      ⟨1, fun _ => none⟩ ⟨false, true, ⟨⟨1, []⟩, 0⟩⟩
      (fun _ => none) (fun _ => false) rfl).1⟩

/-- C2: with `global = false` (so the pass installs the opt-in query), a
`Collider` object is drawn iff its handle resolves in the collider set and
the entity decoded from the collider's `user_data` is in the opt-in set;
in particular an unresolvable handle is never drawn. -/
theorem optin_visibility_iff
    (rapier : RapierContext) (ctx : DebugRenderContext)
    (custom_colors : Entity → Option ColliderDebugColor)
    (visible_colliders : Entity → Bool) (ch : ColliderHandle)
    (hglobal : ctx.global = false) :
    drawing_enabled (mkBackend rapier ctx custom_colors visible_colliders)
        (.Collider ch) = true ↔
      ∃ co, rapier.colliders ch = some co ∧
        visible_colliders (Entity.from_bits co.user_data) = true := by
  unfold mkBackend drawing_enabled
  rw [hglobal]
  cases hco : rapier.colliders ch <;> simp [hco]

/-- Witness for C2: opt-in set containing entity 7, collider at handle 5
with user-data 7 — the collider is drawn. -/
theorem optin_visibility_iff_witness :
    (⟨true, false, ⟨⟨1, []⟩, 0⟩⟩ : DebugRenderContext).global = false ∧
    drawing_enabled
        (mkBackend ⟨1, fun h => if h = 5 then some ⟨7⟩ else none⟩
          ⟨true, false, ⟨⟨1, []⟩, 0⟩⟩ (fun _ => none) (fun e => decide (e = 7)))
        (.Collider 5) = true :=
  ⟨rfl,
    (optin_visibility_iff ⟨1, fun h => if h = 5 then some ⟨7⟩ else none⟩
      ⟨true, false, ⟨⟨1, []⟩, 0⟩⟩ (fun _ => none) (fun e => decide (e = 7))
      5 rfl).mpr ⟨⟨7⟩, rfl, by decide⟩⟩

/-- C3: with `enabled = true` and `global = true` the pass installs no
opt-in query, and every object — collider or not — is visible, for any
contents of the opt-in set. -/
theorem global_visibility
    (rapier : RapierContext) (ctx : DebugRenderContext)
    (custom_colors : Entity → Option ColliderDebugColor)
    (visible_colliders : Entity → Bool) (object : DebugRenderObject)
    (hen : ctx.enabled = true) (hglobal : ctx.global = true) :
    drawing_enabled (mkBackend rapier ctx custom_colors visible_colliders)
      object = true := by
  unfold mkBackend drawing_enabled
  rw [hglobal]
  rfl

/-- Witness for C3 at a concrete enabled, global configuration with an
empty opt-in set. -/
theorem global_visibility_witness :
    (⟨true, true, ⟨⟨1, []⟩, 0⟩⟩ : DebugRenderContext).enabled = true ∧
    drawing_enabled
        (mkBackend ⟨1, fun _ => none⟩ ⟨true, true, ⟨⟨1, []⟩, 0⟩⟩
          (fun _ => none) (fun _ => false)) (.Collider 5) = true :=
  ⟨rfl,
    global_visibility ⟨1, fun _ => none⟩ ⟨true, true, ⟨⟨1, []⟩, 0⟩⟩
      (fun _ => none) (fun _ => false) (.Collider 5) rfl rfl⟩

/-- C4: color resolution strictly prefers an override: if the collider's
decoded entity has a `ColliderDebugColor`, that color (its HSLA view) is
drawn, independently of the upstream default and of the opt-in query
(hence of `global`); otherwise — no override entry, or an unresolvable
handle — the upstream default is used exactly. -/
theorem color_override_priority (B : BevyLinesRenderBackend)
    (ch : ColliderHandle) (default : Hsla) :
    (∀ co cdc, B.context_colliders ch = some co →
        B.custom_colors (Entity.from_bits co.user_data) = some cdc →
        object_color B (.Collider ch) default = cdc.color.as_hsla_f32 ∧
        ∀ vc, object_color { B with visible_colliders := vc }
            (.Collider ch) default = cdc.color.as_hsla_f32) ∧
    (∀ co, B.context_colliders ch = some co →
        B.custom_colors (Entity.from_bits co.user_data) = none →
        object_color B (.Collider ch) default = default) ∧
    (B.context_colliders ch = none →
        object_color B (.Collider ch) default = default) := by
  refine ⟨fun co cdc hco hcdc => ?_, fun co hco hcdc => ?_, fun hco => ?_⟩
  · constructor
    · unfold object_color
      simp [hco, hcdc]
    · intro vc
      unfold object_color
      simp [hco, hcdc]
  · unfold object_color
    simp [hco, hcdc]
  · unfold object_color
    simp [hco]

/-- Witness for C4: collider at handle 5 with user-data 7, override
attached to entity 7 — the override's HSLA view is drawn. -/
theorem color_override_priority_witness :
    object_color
        ⟨1, (fun e => if e = 7 then some ⟨Color.hsla 0 1 1 1⟩ else none),
          none, (fun h => if h = 5 then some ⟨7⟩ else none)⟩
        (.Collider 5) ⟨2, 3, 4, 5⟩ =
      Color.as_hsla_f32 (Color.hsla 0 1 1 1) :=
  ((color_override_priority
      ⟨1, (fun e => if e = 7 then some ⟨Color.hsla 0 1 1 1⟩ else none),
        none, (fun h => if h = 5 then some ⟨7⟩ else none)⟩
      5 ⟨2, 3, 4, 5⟩).1 ⟨7⟩ ⟨Color.hsla 0 1 1 1⟩ (by decide) (by decide)).1

/-- C5: for a visible object, `draw_line` (3D build) and `draw_line2`
(2D build) forward both endpoints with every coordinate multiplied by the
physics scale — the 2D build synthesizing a zero third component — and the
color forwarded is exactly the resolved color's components. -/
theorem scale_and_forward (B : BevyLinesRenderBackend)
    (object : DebugRenderObject) (a b : Point3) (a2 b2 : Point2)
    (color : Hsla) (hvis : drawing_enabled B object = true) :
    draw_line B object a b color =
      some ⟨⟨a.x * B.physics_scale, a.y * B.physics_scale, a.z * B.physics_scale⟩,
            ⟨b.x * B.physics_scale, b.y * B.physics_scale, b.z * B.physics_scale⟩,
            Color.hsla (object_color B object color).h
              (object_color B object color).s
              (object_color B object color).l
              (object_color B object color).a⟩ ∧
    draw_line2 B object a2 b2 color =
      some ⟨⟨a2.x * B.physics_scale, a2.y * B.physics_scale, 0⟩,
            ⟨b2.x * B.physics_scale, b2.y * B.physics_scale, 0⟩,
            Color.hsla (object_color B object color).h
              (object_color B object color).s
              (object_color B object color).l
              (object_color B object color).a⟩ := by
  unfold draw_line draw_line2
  rw [hvis]
  exact ⟨rfl, rfl⟩

/-- Witness for C5: the spec's concrete instance — endpoints (1,2,3) and
(4,5,6) at scale 2 are forwarded as (2,4,6) and (8,10,12). -/
theorem scale_and_forward_witness :
    draw_line ⟨2, fun _ => none, none, fun _ => none⟩ (.Collider 0)
        ⟨1, 2, 3⟩ ⟨4, 5, 6⟩ ⟨0, 0, 0, 1⟩ =
      some ⟨⟨2, 4, 6⟩, ⟨8, 10, 12⟩, Color.hsla 0 0 0 1⟩ := by
  have h := (scale_and_forward ⟨2, fun _ => none, none, fun _ => none⟩
    (.Collider 0) ⟨1, 2, 3⟩ ⟨4, 5, 6⟩ ⟨1, 2⟩ ⟨4, 5⟩ ⟨0, 0, 0, 1⟩ rfl).1
  have hc : object_color ⟨2, fun _ => none, none, fun _ => none⟩
      (.Collider 0) ⟨0, 0, 0, 1⟩ = ⟨0, 0, 0, 1⟩ := rfl
  rw [h, hc]
  simp only [Option.some.injEq, GizmoLine.mk.injEq, Vec3.mk.injEq]
  norm_num

/-- C7: a non-`Collider` object is always visible and always keeps the
upstream default color, for every backend state (any opt-in query, any
override table, any collider set). -/
theorem non_collider_policy (B : BevyLinesRenderBackend)
    (object : DebugRenderObject) (default : Hsla)
    (hnc : object.isCollider = false) :
    drawing_enabled B object = true ∧
    object_color B object default = default := by
  cases hv : B.visible_colliders <;>
    cases object <;>
      simp_all [DebugRenderObject.isCollider, drawing_enabled, object_color]

/-- Witness for C7 at a rigid-body object with a nonempty opt-in query and
override table. -/
theorem non_collider_policy_witness :
    drawing_enabled
        ⟨1, (fun _ => some ⟨Color.hsla 0 1 1 1⟩), some (fun _ => false),
          (fun _ => none)⟩ (.RigidBody 3) = true ∧
    object_color
        ⟨1, (fun _ => some ⟨Color.hsla 0 1 1 1⟩), some (fun _ => false),
          (fun _ => none)⟩ (.RigidBody 3) ⟨2, 3, 4, 5⟩ = ⟨2, 3, 4, 5⟩ :=
  non_collider_policy
    ⟨1, (fun _ => some ⟨Color.hsla 0 1 1 1⟩), some (fun _ => false),
      (fun _ => none)⟩ (.RigidBody 3) ⟨2, 3, 4, 5⟩ rfl

/-- C6: the rigid-body-axes-length style field survives a frame pass
exactly — in both builds, for every traversal, scale, and configuration,
including the early return when `enabled` is false — because the field is
divided by the scale only after snapshotting the style and the snapshot is
written back after the traversal. -/
theorem axes_length_round_trip
    (render_fn : DebugRenderStyle → DebugRenderMode → List Emission3 × DebugRenderStyle)
    (render_fn2 : DebugRenderStyle → DebugRenderMode → List Emission2 × DebugRenderStyle)
    (rapier : RapierContext) (ctx : DebugRenderContext)
    (custom_colors : Entity → Option ColliderDebugColor)
    (visible_colliders : Entity → Bool) :
    (debug_render_scene render_fn rapier ctx custom_colors
        visible_colliders).context.pipeline.style.rigid_body_axes_length =
      ctx.pipeline.style.rigid_body_axes_length ∧
    (debug_render_scene2 render_fn2 rapier ctx custom_colors
        visible_colliders).context.pipeline.style.rigid_body_axes_length =
      ctx.pipeline.style.rigid_body_axes_length := by
  rw [debug_render_scene_context, debug_render_scene2_context]
  exact ⟨rfl, rfl⟩

/-- C8: the §4.1 resolver is pure and deterministic: its `(visible, color)`
output depends only on the configuration and the (extensional) contents of
the collider set, the override table, and the opt-in query, and it hands
back the backend — configuration and store views — unchanged. -/
theorem resolve_pure (B1 B2 : BevyLinesRenderBackend)
    (object : DebugRenderObject) (default : Hsla)
    (hscale : B1.physics_scale = B2.physics_scale)
    (hcol : ∀ h, B1.context_colliders h = B2.context_colliders h)
    (hcc : ∀ e, B1.custom_colors e = B2.custom_colors e)
    (hvis : ∀ e, B1.visible_colliders.map (fun f => f e) =
        B2.visible_colliders.map (fun f => f e)) :
    (resolve B1 object default).1 = (resolve B2 object default).1 ∧
    (resolve B1 object default).2 = B1 ∧
    (resolve B2 object default).2 = B2 := by
  refine ⟨?_, rfl, rfl⟩
  have hde : drawing_enabled B1 object = drawing_enabled B2 object := by
    unfold drawing_enabled
    cases hv1 : B1.visible_colliders with
    | none =>
        cases hv2 : B2.visible_colliders with
        | none => rfl
        | some f2 =>
            have h0 := hvis 0
            rw [hv1, hv2] at h0
            simp at h0
    | some f1 =>
        cases hv2 : B2.visible_colliders with
        | none =>
            have h0 := hvis 0
            rw [hv1, hv2] at h0
            simp at h0
        | some f2 =>
            cases object with
            | Collider ch =>
                simp only [hcol]
                cases hco : B2.context_colliders ch with
                | none => rfl
                | some co =>
                    have he := hvis (Entity.from_bits co.user_data)
                    rw [hv1, hv2] at he
                    simp at he
                    simp [he]
            | RigidBody h => rfl
            | ImpulseJoint h => rfl
            | MultibodyJoint h => rfl
            | ColliderAabbs h => rfl
            | ContactPair h1 h2 => rfl
  have hocol : object_color B1 object default = object_color B2 object default := by
    unfold object_color
    cases object with
    | Collider ch =>
        simp only [hcol]
        cases hco : B2.context_colliders ch with
        | none => rfl
        | some co => simp [hcc]
    | RigidBody h => rfl
    | ImpulseJoint h => rfl
    | MultibodyJoint h => rfl
    | ColliderAabbs h => rfl
    | ContactPair h1 h2 => rfl
  unfold resolve
  rw [hde, hocol]

/-- Witness for C8 at a concrete backend: resolving hands the backend back
unchanged. -/
theorem resolve_pure_witness :
    (resolve ⟨1, fun _ => none, none, fun _ => none⟩ (.Collider 0)
        ⟨0, 0, 0, 1⟩).2 = ⟨1, fun _ => none, none, fun _ => none⟩ :=
  (resolve_pure ⟨1, fun _ => none, none, fun _ => none⟩
    ⟨1, fun _ => none, none, fun _ => none⟩ (.Collider 0) ⟨0, 0, 0, 1⟩
    rfl (fun _ => rfl) (fun _ => rfl) (fun _ => rfl)).2.1

/-- C9: the frame pass restores the whole style struct from the pre-pass
snapshot, so every style field — not only the axes length — equals its
pre-pass value, even when the traversal mutates the style arbitrarily
(the traversal's resulting style is universally quantified through
`render_fn`); in both builds. -/
theorem style_struct_restored
    (render_fn : DebugRenderStyle → DebugRenderMode → List Emission3 × DebugRenderStyle)
    (render_fn2 : DebugRenderStyle → DebugRenderMode → List Emission2 × DebugRenderStyle)
    (rapier : RapierContext) (ctx : DebugRenderContext)
    (custom_colors : Entity → Option ColliderDebugColor)
    (visible_colliders : Entity → Bool) :
    (debug_render_scene render_fn rapier ctx custom_colors
        visible_colliders).context.pipeline.style = ctx.pipeline.style ∧
    (debug_render_scene2 render_fn2 rapier ctx custom_colors
        visible_colliders).context.pipeline.style = ctx.pipeline.style := by
  rw [debug_render_scene_context, debug_render_scene2_context]
  exact ⟨rfl, rfl⟩

/-- C10: the plugin defaults — under `dim2`, `enabled` and `global` are
true, the mode is the library default, and the style is the library
default with `rigid_body_axes_length` forced to 20; under `dim3` the
whole plugin is `(global, enabled, style, mode) = (true, true, library
default, library default)`. -/
theorem plugin_default_config (libStyle : DebugRenderStyle)
    (libMode : DebugRenderMode) :
    (RapierDebugRenderPlugin.default_dim2 libStyle libMode).enabled = true ∧
    (RapierDebugRenderPlugin.default_dim2 libStyle libMode).global = true ∧
    (RapierDebugRenderPlugin.default_dim2 libStyle libMode).mode = libMode ∧
    (RapierDebugRenderPlugin.default_dim2
        libStyle libMode).style.rigid_body_axes_length = 20 ∧
    (RapierDebugRenderPlugin.default_dim2
        libStyle libMode).style.other_fields = libStyle.other_fields ∧
    RapierDebugRenderPlugin.default_dim3 libStyle libMode =
      ⟨true, true, libStyle, libMode⟩ :=
  ⟨rfl, rfl, rfl, rfl, rfl, rfl⟩

end DebugRender
